import Mathlib

/-!
Shallow embedding of the analytics router of this repository
(`src/unnamed/part_000`, an Express router with six admin-only
reporting endpoints: overview, user-engagement, challenge-stats,
traffic, leaderboard-stats, submissions).

Records are modelled as Lean structures, MongoDB collections as lists,
`countDocuments(filter)` as counting a Boolean predicate, JavaScript
numbers as `Nat`/`Int`/`ℚ` (all quantities in range are exact in IEEE
doubles, so rational arithmetic is a faithful model), JavaScript plain
objects used as string-keyed maps as association lists in insertion
order, and the (ES2019) stable `Array.prototype.sort` as
`List.mergeSort`.  Wall-clock time is an explicit `now` parameter in
milliseconds since the Unix epoch.
-/

namespace Analytics

/-- Projection of a user stored in a challenge record, as produced by
`.populate(solvedBy, username email points)`. -/
structure SolverInfo where
  username : String
  email : String
  points : Nat
deriving DecidableEq

/-- Projection of a challenge stored in a user record, as produced by
`.populate(solvedChallenges, title category difficulty points)`. -/
structure SolvedRef where
  title : String
  category : String
  difficulty : String
  points : Nat
deriving DecidableEq

/-- A user record with the fields the analytics router reads. -/
structure UserRec where
  username : String
  email : String
  points : Nat
  solvedChallenges : List SolvedRef
  createdAt : Nat
  isBlocked : Bool
  role : String
deriving DecidableEq

/-- A challenge record with the fields the analytics router reads. -/
structure ChallengeRec where
  title : String
  category : String
  difficulty : String
  points : Nat
  isVisible : Bool
  solvedBy : List SolverInfo
deriving DecidableEq

/-- Embeds `Model.countDocuments(filter)`: the number of records matching the
filter. -/
def countDocuments (p : α → Bool) (l : List α) : Nat :=
  (l.filter p).length

/-- Embeds `Number.prototype.toFixed(2)` on a nonnegative value, read back as a
number: round to the nearest multiple of 1/100, ties upward. -/
def round2 (q : ℚ) : ℚ :=
  (⌊q * 100 + 1 / 2⌋ : ℚ) / 100

/-! ### GET /overview -/

/-- Milliseconds in 30 days, `30 * 24 * 60 * 60 * 1000`. -/
def thirtyDaysMs : Nat := 30 * 24 * 60 * 60 * 1000

/-- Source: `totalUsers = User.countDocuments()`. -/
def totalUsers (users : List UserRec) : Nat := users.length

/-- Source: `activeUsers`, users with `createdAt >= Date.now() - 30 days`. -/
def activeUsers (now : Nat) (users : List UserRec) : Nat :=
  countDocuments (fun u => decide ((now : Int) - thirtyDaysMs ≤ u.createdAt)) users

/-- Source: `adminUsers = User.countDocuments(\x7b role: admin \x7d)`. -/
def adminUsers (users : List UserRec) : Nat :=
  countDocuments (fun u => u.role == "admin") users

/-- Source: `blockedUsers = User.countDocuments(\x7b isBlocked: true \x7d)`. -/
def blockedUsers (users : List UserRec) : Nat :=
  countDocuments (fun u => u.isBlocked) users

/-- Source: `totalSubmissions`, the sum over all users of the size of
`solvedChallenges` (also `totalSubmissions`/`successfulSubmissions` in
the submissions endpoint). -/
def totalSubmissions (users : List UserRec) : Nat :=
  users.foldl (fun sum u => sum + u.solvedChallenges.length) 0

/-- Source: `totalPoints`, the sum over all users of `points`. -/
def totalPoints (users : List UserRec) : Nat :=
  users.foldl (fun sum u => sum + u.points) 0

/-- Source: `avgPointsPerUser = totalUsers > 0 ? (totalPoints / totalUsers).toFixed(2) : 0`. -/
def avgPointsPerUser (users : List UserRec) : ℚ :=
  if totalUsers users > 0 then
    round2 ((totalPoints users : ℚ) / (totalUsers users : ℚ))
  else 0

/-- The roles the analytics routes are gated on:
`authorize(admin, superadmin)`. -/
def authorizedRoles : List String := ["admin", "superadmin"]

/-! ### GET /user-engagement -/

/-- One element of `engagementData`, the per-user derived record. -/
structure EngUser where
  username : String
  challengesSolved : Nat
  points : Nat
  isActive : Bool
  daysActive : Int
deriving DecidableEq

/-- The four tier counts of the `engagement` summary. -/
structure EngagementSummary where
  highEngagement : Nat
  mediumEngagement : Nat
  lowEngagement : Nat
  inactive : Nat
deriving DecidableEq

/-- Source: `engagementData = users.map(...)` with
`challengesSolved = user.solvedChallenges.length`,
`isActive = !user.isBlocked`, and
`daysActive = Math.floor((Date.now() - createdAt) / (1000*60*60*24))`. -/
def engagementData (now : Int) (users : List UserRec) : List EngUser :=
  users.map fun u =>
    { username := u.username
      challengesSolved := u.solvedChallenges.length
      points := u.points
      isActive := !u.isBlocked
      daysActive := Int.fdiv (now - (u.createdAt : Int)) (1000 * 60 * 60 * 24) }

/-- Source: the `engagement` summary object, four `filter(...).length`
counts over `engagementData`. -/
def engagement (ed : List EngUser) : EngagementSummary :=
  { highEngagement := (ed.filter fun u => decide (u.challengesSolved ≥ 5) && u.isActive).length
    mediumEngagement := (ed.filter fun u =>
      decide (u.challengesSolved ≥ 2) && decide (u.challengesSolved < 5) && u.isActive).length
    lowEngagement := (ed.filter fun u => decide (u.challengesSolved < 2) && u.isActive).length
    inactive := (ed.filter fun u => !u.isActive).length }

/-! ### GET /challenge-stats -/

/-- Value of a `byCategory` entry. -/
structure CatStat where
  count : Nat
  solved : Nat
deriving DecidableEq

/-- Value of a `byDifficulty` entry.  The field really named
`avgPoints` in the source holds a running sum, not an average. -/
structure DiffStat where
  count : Nat
  avgPoints : Nat
deriving DecidableEq

/-- A JavaScript object used as a string-keyed map, with its insertion
order. -/
abbrev StatMap (σ : Type) := List (String × σ)

/-- Embeds the update pattern `if (!m[k]) m[k] = d; m[k] = f(m[k])` on
a plain object: update the entry in place if the key is present,
otherwise append a fresh entry (object keys enumerate in insertion
order). -/
def bump (k : String) (d : σ) (f : σ → σ) : StatMap σ → StatMap σ
  | [] => [(k, f d)]
  | (k2, v) :: m => if k2 = k then (k2, f v) :: m else (k2, v) :: bump k d f m

/-- Embeds reading `m[k]` from a plain object. -/
def getEntry (k : String) : StatMap σ → Option σ
  | [] => none
  | (k2, v) :: m => if k2 = k then some v else getEntry k m

/-- Sum of `g` over all values of a map. -/
def sumVals (g : σ → Nat) : StatMap σ → Nat
  | [] => 0
  | (_, v) :: m => g v + sumVals g m

/-- Per-challenge update of a `byCategory` entry:
`count++; solved += challenge.solvedBy.length`. -/
def catStep (c : ChallengeRec) (s : CatStat) : CatStat :=
  { count := s.count + 1, solved := s.solved + c.solvedBy.length }

/-- Source: the `stats.byCategory` accumulation of the
`challenges.forEach` loop. -/
def byCategory (challenges : List ChallengeRec) : StatMap CatStat :=
  challenges.foldl
    (fun m c => bump c.category { count := 0, solved := 0 } (catStep c) m) []

/-- Per-challenge update of a `byDifficulty` entry:
`count++; avgPoints += challenge.points` (a running sum despite the
name). -/
def diffStep (c : ChallengeRec) (s : DiffStat) : DiffStat :=
  { count := s.count + 1, avgPoints := s.avgPoints + c.points }

/-- Source: the `stats.byDifficulty` accumulation of the
`challenges.forEach` loop; `avgPoints` accumulates `challenge.points`
without ever dividing. -/
def byDifficulty (challenges : List ChallengeRec) : StatMap DiffStat :=
  challenges.foldl
    (fun m c => bump c.difficulty { count := 0, avgPoints := 0 } (diffStep c) m) []

/-- One element of `stats.solvedChallenges`. -/
structure SolvedChallengeProj where
  title : String
  category : String
  difficulty : String
  points : Nat
  solvedBy : List SolverInfo
deriving DecidableEq

/-- The projection pushed onto `stats.solvedChallenges`. -/
def projectSolved (c : ChallengeRec) : SolvedChallengeProj :=
  { title := c.title, category := c.category, difficulty := c.difficulty,
    points := c.points,
    solvedBy := c.solvedBy.map fun u =>
      { username := u.username, email := u.email, points := u.points } }

/-- Source: the `stats.solvedChallenges` accumulation, pushing each
challenge with `solvedBy.length > 0`. -/
def solvedChallenges (challenges : List ChallengeRec) : List SolvedChallengeProj :=
  challenges.foldl
    (fun acc c => if 0 < c.solvedBy.length then acc ++ [projectSolved c] else acc) []

/-- Solve count of a challenge, `challenge.solvedBy?.length || 0`. -/
def solvesOf (c : ChallengeRec) : Nat := c.solvedBy.length

/-- Embeds the comparator `(a, b) => (b.solvedBy?.length || 0) - (a.solvedBy?.length || 0)`
of the ES2019 stable sort: `a` may stay before `b` exactly when the
comparator is not positive. -/
def bySolvesDesc (a b : ChallengeRec) : Bool := decide (solvesOf b ≤ solvesOf a)

/-- Embeds the comparator `(a, b) => (a.solvedBy?.length || 0) - (b.solvedBy?.length || 0)`. -/
def bySolvesAsc (a b : ChallengeRec) : Bool := decide (solvesOf a ≤ solvesOf b)

/-- One element of `topChallenges` / `leastSolved`. -/
structure TopChallengeProj where
  title : String
  solves : Nat
  points : Nat
deriving DecidableEq

/-- The projection `c => (\x7b title, solves, points \x7d)`. -/
def projectTop (c : ChallengeRec) : TopChallengeProj :=
  { title := c.title, solves := c.solvedBy.length, points := c.points }

/-- Source: `stats.topChallenges = challenges.sort(desc).slice(0, 5).map(...)`,
with the stable in-place sort modelled by `List.mergeSort`. -/
def topChallenges (challenges : List ChallengeRec) : List TopChallengeProj :=
  ((challenges.mergeSort bySolvesDesc).take 5).map projectTop

/-- The challenge array at the time `leastSolved` is computed:
`Array.prototype.sort` mutates in place, so the ascending sort runs on
the array left sorted descending by the `topChallenges` line. -/
def challengesAfterSorts (challenges : List ChallengeRec) : List ChallengeRec :=
  (challenges.mergeSort bySolvesDesc).mergeSort bySolvesAsc

/-- Source: `stats.leastSolved = challenges.sort(asc).slice(0, 5).map(...)`,
run after the `topChallenges` sort already reordered the array. -/
def leastSolved (challenges : List ChallengeRec) : List TopChallengeProj :=
  ((challengesAfterSorts challenges).take 5).map projectTop

/-! ### GET /leaderboard-stats -/

/-- Embeds the sort clause `.sort(points: -1)` of the leaderboard
query. -/
def byPointsDesc (a b : UserRec) : Bool := decide (b.points ≤ a.points)

/-- One element of the leaderboard response. -/
structure LBEntry where
  rank : Nat
  username : String
  points : Nat
  challengesSolved : Nat
deriving DecidableEq

/-- Source: `User.find().sort(points: -1).limit(10)`. -/
def topUsers (users : List UserRec) : List UserRec :=
  (users.mergeSort byPointsDesc).take 10

/-- Source: `topUsers.map((user, index) => (...))` with
`rank = index + 1` and `challengesSolved = solvedChallenges?.length || 0`. -/
def rankEntries : Nat → List UserRec → List LBEntry
  | _, [] => []
  | i, u :: us =>
    { rank := i + 1, username := u.username, points := u.points,
      challengesSolved := u.solvedChallenges.length } :: rankEntries (i + 1) us

/-- The `topUsersData` response list. -/
def topUsersData (users : List UserRec) : List LBEntry :=
  rankEntries 0 (topUsers users)

/-! ### GET /traffic -/

/-- Two-digit zero padding used by ISO date formatting. -/
def pad2 (n : Nat) : String :=
  if n < 10 then ("0") ++ toString n else toString n

/-- Four-digit zero padding used by ISO date formatting. -/
def pad4 (n : Nat) : String :=
  if n < 10 then ("000") ++ toString n
  else if n < 100 then ("00") ++ toString n
  else if n < 1000 then ("0") ++ toString n
  else toString n

/-- Gregorian (year, month, day) for a count of days since 1970-01-01,
the standard civil-from-days computation used to produce the date part
of `Date.prototype.toISOString` (UTC). -/
def civilFromDays (z : Nat) : Nat × Nat × Nat :=
  let zz := z + 719468
  let era := zz / 146097
  let doe := zz % 146097
  let yoe := (doe - doe / 1460 + doe / 36524 - doe / 146096) / 365
  let y := yoe + era * 400
  let doy := doe - (365 * yoe + yoe / 4 - yoe / 100)
  let mp := (5 * doy + 2) / 153
  let d := doy - (153 * mp + 2) / 5 + 1
  let m := if mp < 10 then mp + 3 else mp - 9
  (if m ≤ 2 then y + 1 else y, m, d)

/-- Embeds `new Date(t).toISOString().split(T)[0]`: the ISO calendar
date string, with no time component, of a millisecond timestamp. -/
def toISODate (t : Nat) : String :=
  let c := civilFromDays (t / 86400000)
  pad4 c.1 ++ ("-") ++ pad2 c.2.1 ++ ("-") ++ pad2 c.2.2

/-- Source: the window query
`User.find(createdAt >= thirtyDaysAgo).select(createdAt)`. -/
def trafficUsers (now : Nat) (users : List UserRec) : List UserRec :=
  users.filter fun u => decide ((now : Int) - (thirtyDaysMs : Int) ≤ (u.createdAt : Int))

/-- Source: the `usersPerDay` accumulation
`usersPerDay[day] = (usersPerDay[day] || 0) + 1` over the 30-day
filtered users. -/
def usersPerDay (users : List UserRec) : StatMap Nat :=
  users.foldl (fun m u => bump (toISODate u.createdAt) 0 (fun x => x + 1) m) []

/-- The `dailyBreakdown` field of the traffic response. -/
def dailyBreakdown (now : Nat) (users : List UserRec) : StatMap Nat :=
  usersPerDay (trafficUsers now users)

/-! ### GET /submissions -/

/-- Source: `estimatedFailedSubmissions = Math.floor(totalSubmissions * 0.3)`
(the assumed 30 percent failure rate). -/
def estimatedFailedSubmissions (totalSuccessful : Nat) : Nat :=
  (⌊(totalSuccessful : ℚ) * 0.3⌋).toNat

/-- Source: `estimatedTotalAttempts = totalSubmissions + estimatedFailedSubmissions`. -/
def estimatedTotalAttempts (totalSuccessful : Nat) : Nat :=
  totalSuccessful + estimatedFailedSubmissions totalSuccessful

/-- Source: `successRate = estimatedTotalAttempts > 0 ?
((totalSubmissions / estimatedTotalAttempts) * 100).toFixed(2) : 0`. -/
def successRate (totalSuccessful : Nat) : ℚ :=
  if 0 < estimatedTotalAttempts totalSuccessful then
    round2 ((totalSuccessful : ℚ) / (estimatedTotalAttempts totalSuccessful : ℚ) * 100)
  else 0

/-- Source: `failureRate = (100 - successRate).toFixed(2)`. -/
def failureRate (totalSuccessful : Nat) : ℚ :=
  round2 (100 - successRate totalSuccessful)

end Analytics

namespace Analytics

/-! ### Helper lemmas -/

theorem foldl_add_init (g : α → Nat) (l : List α) :
    ∀ n : Nat, l.foldl (fun sum a => sum + g a) n = n + l.foldl (fun sum a => sum + g a) 0 := by
  induction l with
  | nil => intro n; simp
  | cons a l ih =>
    intro n
    simp only [List.foldl_cons]
    rw [ih (n + g a), ih (0 + g a)]
    omega

theorem getEntry_bump_self (k : String) (d : σ) (f : σ → σ) (m : StatMap σ) :
    getEntry k (bump k d f m) = some (f ((getEntry k m).getD d)) := by
  induction m with
  | nil => simp [bump, getEntry]
  | cons kv m ih =>
    obtain ⟨k2, v⟩ := kv
    by_cases h : k2 = k <;> simp [bump, getEntry, h, ih]

theorem getEntry_bump_other (k k3 : String) (d : σ) (f : σ → σ) (m : StatMap σ)
    (h : ¬ k3 = k) :
    getEntry k (bump k3 d f m) = getEntry k m := by
  have h4 : ¬ k = k3 := fun hh => h hh.symm
  induction m with
  | nil => simp [bump, getEntry, h]
  | cons kv m ih =>
    obtain ⟨k2, v⟩ := kv
    by_cases h2 : k2 = k3 <;> by_cases h3 : k2 = k <;>
      simp_all [bump, getEntry]

theorem getEntry_foldl_bump (key : α → String) (d : σ) (step : α → σ → σ)
    (l : List α) (k : String) :
    ∀ m : StatMap σ,
      getEntry k (l.foldl (fun m a => bump (key a) d (step a) m) m) =
        match getEntry k m with
        | some s => some ((l.filter fun a => key a == k).foldl (fun s a => step a s) s)
        | none =>
          if (l.filter fun a => key a == k).isEmpty then none
          else some ((l.filter fun a => key a == k).foldl (fun s a => step a s) d) := by
  induction l with
  | nil => intro m; cases hm : getEntry k m <;> simp [hm]
  | cons a l ih =>
    intro m
    simp only [List.foldl_cons, List.filter_cons]
    by_cases h : key a = k
    · rw [ih]
      rw [show key a = k from h, getEntry_bump_self]
      cases hm : getEntry k m <;> simp [h, hm]
    · rw [ih, getEntry_bump_other _ _ _ _ _ h]
      simp [h]

theorem sumVals_bump (g : σ → Nat) (k : String) (d : σ) (f : σ → σ) (m : StatMap σ)
    (c : Nat) (hd : g d = 0) (hf : ∀ v, g (f v) = g v + c) :
    sumVals g (bump k d f m) = sumVals g m + c := by
  induction m with
  | nil => simp [bump, sumVals, hf d, hd]
  | cons kv m ih =>
    obtain ⟨k2, v⟩ := kv
    by_cases h : k2 = k <;> simp [bump, sumVals, h, hf, ih] <;> omega

theorem sumVals_foldl_bump (g : σ → Nat) (key : α → String) (d : σ)
    (step : α → σ → σ) (inc : α → Nat) (hd : g d = 0)
    (hstep : ∀ a v, g (step a v) = g v + inc a) (l : List α) :
    ∀ m, sumVals g (l.foldl (fun m a => bump (key a) d (step a) m) m) =
      sumVals g m + (l.map inc).sum := by
  induction l with
  | nil => intro m; simp
  | cons a l ih =>
    intro m
    simp only [List.foldl_cons, List.map_cons, List.sum_cons]
    rw [ih, sumVals_bump g (key a) d (step a) m (inc a) hd (hstep a)]
    omega

theorem foldl_catStep (cs : List ChallengeRec) :
    ∀ s : CatStat,
      cs.foldl (fun s c => catStep c s) s =
        { count := s.count + cs.length,
          solved := s.solved + (cs.map fun c => c.solvedBy.length).sum } := by
  induction cs with
  | nil => intro s; simp
  | cons c cs ih =>
    intro s
    rw [List.foldl_cons, ih]
    simp only [catStep, CatStat.mk.injEq, List.map_cons, List.sum_cons, List.length_cons]
    constructor <;> omega

theorem foldl_diffStep (cs : List ChallengeRec) :
    ∀ s : DiffStat,
      cs.foldl (fun s c => diffStep c s) s =
        { count := s.count + cs.length,
          avgPoints := s.avgPoints + (cs.map fun c => c.points).sum } := by
  induction cs with
  | nil => intro s; simp
  | cons c cs ih =>
    intro s
    rw [List.foldl_cons, ih]
    simp only [diffStep, DiffStat.mk.injEq, List.map_cons, List.sum_cons, List.length_cons]
    constructor <;> omega

theorem foldl_pushIf (p : α → Prop) [DecidablePred p] (f : α → β) (l : List α) :
    ∀ acc : List β,
      l.foldl (fun acc a => if p a then acc ++ [f a] else acc) acc =
        acc ++ (l.filter fun a => decide (p a)).map f := by
  induction l with
  | nil => intro acc; simp
  | cons a l ih =>
    intro acc
    simp only [List.foldl_cons, List.filter_cons]
    by_cases h : p a <;> simp [h, ih]

theorem filter_mergeSort_of_all_le (le : α → α → Bool)
    (trans : ∀ a b c, le a b → le b c → le a c)
    (total : ∀ a b, le a b || le b a)
    (p : α → Bool) (hp : ∀ a b, p a → p b → le a b)
    (l : List α) :
    (l.mergeSort le).filter p = l.filter p := by
  have hpair : (l.filter p).Pairwise (fun a b => le a b = true) := by
    apply List.pairwise_of_forall_mem_list
    intro a ha b hb
    exact hp a b (List.mem_filter.mp ha).2 (List.mem_filter.mp hb).2
  have hsub : List.Sublist (l.filter p) (l.mergeSort le) :=
    List.sublist_mergeSort trans total hpair (List.filter_sublist l)
  have hsub2 := hsub.filter p
  have heq : (l.filter p).filter p = l.filter p :=
    List.filter_eq_self.mpr (fun a ha => (List.mem_filter.mp ha).2)
  rw [heq] at hsub2
  have hlen : ((l.mergeSort le).filter p).length = (l.filter p).length :=
    ((List.mergeSort_perm l le).filter p).length_eq
  exact (hsub2.eq_of_length hlen.symm).symm

theorem rankEntries_length (l : List UserRec) :
    ∀ i, (rankEntries i l).length = l.length := by
  induction l with
  | nil => intro i; rfl
  | cons u us ih => intro i; simp [rankEntries, ih]

theorem rankEntries_map_rank (l : List UserRec) :
    ∀ i, (rankEntries i l).map (fun e => e.rank) = List.range' (i + 1) l.length := by
  induction l with
  | nil => intro i; rfl
  | cons u us ih =>
    intro i
    simp only [rankEntries, List.map_cons, List.length_cons, List.range'_succ, ih]

theorem rankEntries_map_points (l : List UserRec) :
    ∀ i, (rankEntries i l).map (fun e => e.points) = l.map (fun u => u.points) := by
  induction l with
  | nil => intro i; rfl
  | cons u us ih => intro i; simp [rankEntries, ih]

theorem rankEntries_map_username (l : List UserRec) :
    ∀ i, (rankEntries i l).map (fun e => e.username) = l.map (fun u => u.username) := by
  induction l with
  | nil => intro i; rfl
  | cons u us ih => intro i; simp [rankEntries, ih]

theorem sum_map_one (l : List α) : (l.map fun _ => (1 : Nat)).sum = l.length := by
  induction l with
  | nil => rfl
  | cons a l ih => simp [ih]; omega

theorem foldl_succ_length (l : List α) :
    ∀ n : Nat, l.foldl (fun s _ => s + 1) n = n + l.length := by
  induction l with
  | nil => intro n; simp
  | cons a l ih =>
    intro n
    simp only [List.foldl_cons, List.length_cons, ih]
    omega

theorem round2_int_div_100 (k : ℤ) : round2 ((k : ℚ) / 100) = (k : ℚ) / 100 := by
  unfold round2
  have h : ((k : ℚ) / 100) * 100 = (k : ℚ) := by
    rw [div_mul_cancel₀]
    norm_num
  rw [h]
  have h2 : ⌊(k : ℚ) + 1 / 2⌋ = k := by
    rw [add_comm, Int.floor_add_int]
    norm_num
  rw [h2]

theorem filter_length_partition (p q r c : α → Bool) (l : List α)
    (h : ∀ a ∈ l, (p a).toNat + (q a).toNat + (r a).toNat + (c a).toNat = 1) :
    (l.filter p).length + (l.filter q).length + (l.filter r).length +
      (l.filter c).length = l.length := by
  induction l with
  | nil => rfl
  | cons a l ih =>
    have ha := h a (List.mem_cons_self a l)
    have ih2 := ih (fun x hx => h x (List.mem_cons_of_mem a hx))
    simp only [List.filter_cons, List.length_cons]
    cases hp : p a <;> cases hq : q a <;> cases hr : r a <;> cases hc : c a <;>
      simp [hp, hq, hr, hc] at ha ⊢ <;> omega

/-! ### Claim theorems -/

/-- C5: For every user collection, Overview's `avgPerUser` equals
`totalPoints / totalUsers` rounded to 2 decimal places when
`totalUsers > 0`, and equals `0` when `totalUsers = 0`; the division is
guarded, so the result is a well-defined rational (never NaN, no
exception). -/
theorem c5_avgPerUser_guarded (users : List UserRec) :
    avgPointsPerUser users =
      if totalUsers users = 0 then 0
      else round2 ((totalPoints users : ℚ) / (totalUsers users : ℚ)) := by
  unfold avgPointsPerUser
  rcases Nat.eq_zero_or_pos (totalUsers users) with h | h
  · simp [h]
  · simp [h, Nat.pos_iff_ne_zero.mp h]

/-- C10: `users.admins` counts exactly the users whose role is the
string `admin`: removing all `superadmin` users leaves the count
unchanged (they are never counted), admins and non-admins partition the
collection, and yet `superadmin` is one of the roles granted access to
the endpoint. -/
theorem c10_admins_excludes_superadmin (users : List UserRec) :
    adminUsers users = adminUsers (users.filter (fun u => !(u.role == "superadmin"))) ∧
    adminUsers users + (users.filter (fun u => !(u.role == "admin"))).length = users.length ∧
    "superadmin" ∈ authorizedRoles := by
  refine ⟨?_, ?_, by simp [authorizedRoles]⟩
  · unfold adminUsers countDocuments
    rw [List.filter_filter]
    apply congrArg
    apply List.filter_congr
    intro u _
    by_cases h : u.role = "admin"
    · simp [h]
    · simp [h]
  · unfold adminUsers countDocuments
    rw [← List.countP_eq_length_filter, ← List.countP_eq_length_filter]
    have h := List.length_eq_countP_add_countP (p := fun u : UserRec => u.role == "admin") users
    have h2 : List.countP (fun u : UserRec => !(u.role == "admin")) users
        = List.countP (fun u : UserRec => decide (¬((u.role == "admin") = true))) users := by
      apply List.countP_congr
      intro x _
      simp
    omega

/-- C3: UserEngagement tier counts partition the users.  The four
summary counts sum to the total number of users; each entry of
`engagementData` satisfies exactly one of the three tier predicates
when it is active and none of them when it is inactive (so blocked
users are counted only in `inactive`); and `inactive` is exactly the
number of blocked users. -/
theorem c3_engagement_partition (now : Int) (users : List UserRec) :
    (engagement (engagementData now users)).highEngagement +
      (engagement (engagementData now users)).mediumEngagement +
      (engagement (engagementData now users)).lowEngagement +
      (engagement (engagementData now users)).inactive = totalUsers users ∧
    (∀ u ∈ engagementData now users,
      (decide (u.challengesSolved ≥ 5) && u.isActive).toNat +
        (decide (u.challengesSolved ≥ 2) && decide (u.challengesSolved < 5) && u.isActive).toNat +
        (decide (u.challengesSolved < 2) && u.isActive).toNat = u.isActive.toNat) ∧
    (engagement (engagementData now users)).inactive =
      (users.filter fun u => u.isBlocked).length := by
  have hb : ∀ u : EngUser,
      (decide (u.challengesSolved ≥ 5) && u.isActive).toNat +
        (decide (u.challengesSolved ≥ 2) && decide (u.challengesSolved < 5) && u.isActive).toNat +
        (decide (u.challengesSolved < 2) && u.isActive).toNat = u.isActive.toNat := by
    intro u
    cases h : u.isActive
    · simp
    · by_cases h5 : u.challengesSolved ≥ 5 <;> by_cases h2 : u.challengesSolved ≥ 2 <;>
        by_cases hl5 : u.challengesSolved < 5 <;> by_cases hl2 : u.challengesSolved < 2 <;>
        simp [h5, h2, hl5, hl2] <;> omega
  refine ⟨?_, fun u _ => hb u, ?_⟩
  · have hpart := filter_length_partition
      (fun u : EngUser => decide (u.challengesSolved ≥ 5) && u.isActive)
      (fun u : EngUser => decide (u.challengesSolved ≥ 2) && decide (u.challengesSolved < 5) && u.isActive)
      (fun u : EngUser => decide (u.challengesSolved < 2) && u.isActive)
      (fun u : EngUser => !u.isActive)
      (engagementData now users)
      (fun u _ => by
        have h := hb u
        cases ha : u.isActive <;> simp [ha] at h ⊢ <;> omega)
    simpa [engagement, engagementData, totalUsers] using hpart
  · simp [engagement, engagementData, List.filter_map, Function.comp_def]

/-- C2: every `byDifficulty` entry holds, for its difficulty label, the
count of challenges with that difficulty together with — in the field
named `avgPoints` — the running sum of those challenges' point values
(an accumulation, never divided); labels with no challenge have no
entry. -/
theorem c2_byDifficulty_accumulates (challenges : List ChallengeRec) (k : String) :
    getEntry k (byDifficulty challenges) =
      if (challenges.filter fun c => c.difficulty == k).isEmpty then none
      else some
        { count := (challenges.filter fun c => c.difficulty == k).length,
          avgPoints :=
            ((challenges.filter fun c => c.difficulty == k).map fun c => c.points).sum } := by
  unfold byDifficulty
  rw [getEntry_foldl_bump (fun c => c.difficulty) _ _ challenges k []]
  simp only [getEntry]
  by_cases h : (challenges.filter fun c => c.difficulty == k).isEmpty
  · simp [h]
  · simp only [h, if_neg, Bool.false_eq_true, not_false_iff]
    rw [foldl_diffStep]
    simp

/-- C4: summing `count` over all `byCategory` entries gives the total
number of challenges, and summing `solved` gives the total size of all
`solvedBy` sets. -/
theorem c4_byCategory_totals (challenges : List ChallengeRec) :
    sumVals (fun s => s.count) (byCategory challenges) = challenges.length ∧
    sumVals (fun s => s.solved) (byCategory challenges) =
      (challenges.map fun c => c.solvedBy.length).sum := by
  have hone : ∀ l : List ChallengeRec, (l.map fun _ => (1 : Nat)).sum = l.length := by
    intro l
    induction l with
    | nil => rfl
    | cons c l ih => simp [ih]; omega
  constructor
  · unfold byCategory
    rw [sumVals_foldl_bump (fun s : CatStat => s.count) (fun c : ChallengeRec => c.category)
      { count := 0, solved := 0 } catStep (fun _ => 1) rfl (fun a v => rfl) challenges []]
    simp [sumVals, hone]
  · unfold byCategory
    rw [sumVals_foldl_bump (fun s : CatStat => s.solved) (fun c : ChallengeRec => c.category)
      { count := 0, solved := 0 } catStep (fun c => c.solvedBy.length) rfl (fun a v => rfl)
      challenges []]
    simp [sumVals]

/-- C7: `solvedChallenges` lists exactly the challenges whose `solvedBy`
set is non-empty, projected with their solver list, while the `count`
fields of `byCategory` and `byDifficulty` count every challenge with the
matching label, including challenges with zero solvers. -/
theorem c7_solvedChallenges_nonEmpty (challenges : List ChallengeRec) :
    solvedChallenges challenges =
      (challenges.filter fun c => decide (0 < c.solvedBy.length)).map projectSolved ∧
    ∀ k : String,
      (getEntry k (byCategory challenges)).elim 0 (fun s => s.count) =
        (challenges.filter fun c => c.category == k).length ∧
      (getEntry k (byDifficulty challenges)).elim 0 (fun s => s.count) =
        (challenges.filter fun c => c.difficulty == k).length := by
  refine ⟨?_, fun k => ⟨?_, ?_⟩⟩
  · unfold solvedChallenges
    rw [foldl_pushIf]
    simp
  · unfold byCategory
    rw [getEntry_foldl_bump (fun c => c.category) _ _ challenges k []]
    simp only [getEntry]
    by_cases h : (challenges.filter fun c => c.category == k).isEmpty
    · simp [h, List.isEmpty_iff.mp h]
    · simp only [h, if_neg, Bool.false_eq_true, not_false_iff]
      rw [foldl_catStep]
      simp
  · unfold byDifficulty
    rw [getEntry_foldl_bump (fun c => c.difficulty) _ _ challenges k []]
    simp only [getEntry]
    by_cases h : (challenges.filter fun c => c.difficulty == k).isEmpty
    · simp [h, List.isEmpty_iff.mp h]
    · simp only [h, if_neg, Bool.false_eq_true, not_false_iff]
      rw [foldl_diffStep]
      simp

/-- C6: the leaderboard over the points-descending stable sort of the
user collection has at most 10 entries, ranks 1, 2, ..., n in order,
non-increasing points, entries following the sorted order, and the
stable sort keeps every run of equal-points users in the order of the
underlying collection. -/
theorem c6_leaderboard_ranks (users : List UserRec) :
    (topUsersData users).length ≤ 10 ∧
    (topUsersData users).map (fun e => e.rank) =
      List.range' 1 (topUsersData users).length ∧
    ((topUsersData users).map (fun e => e.points)).Pairwise (fun a b => b ≤ a) ∧
    (topUsersData users).map (fun e => e.username) =
      ((users.mergeSort byPointsDesc).take 10).map (fun u => u.username) ∧
    ∀ n : Nat,
      (users.mergeSort byPointsDesc).filter (fun u => u.points == n) =
        users.filter (fun u => u.points == n) := by
  have htrans : ∀ a b c : UserRec, byPointsDesc a b → byPointsDesc b c → byPointsDesc a c := by
    intro a b c hab hbc
    simp only [byPointsDesc, decide_eq_true_eq] at hab hbc ⊢
    omega
  have htotal : ∀ a b : UserRec, byPointsDesc a b || byPointsDesc b a := by
    intro a b
    simp only [byPointsDesc]
    by_cases h : b.points ≤ a.points
    · simp [h]
    · simp only [Bool.or_eq_true, decide_eq_true_eq]
      omega
  refine ⟨?_, ?_, ?_, ?_, ?_⟩
  · unfold topUsersData topUsers
    rw [rankEntries_length]
    simp [List.length_take]
  · unfold topUsersData topUsers
    rw [rankEntries_map_rank, rankEntries_length]
  · unfold topUsersData topUsers
    rw [rankEntries_map_points, List.pairwise_map]
    have hs := List.sorted_mergeSort htrans htotal users
    have hs2 : ((users.mergeSort byPointsDesc).take 10).Pairwise
        (fun a b => byPointsDesc a b = true) :=
      List.Pairwise.sublist (List.take_sublist 10 _) hs
    exact hs2.imp (fun h => by simpa [byPointsDesc] using h)
  · unfold topUsersData topUsers
    rw [rankEntries_map_username]
  · intro n
    apply filter_mergeSort_of_all_le byPointsDesc htrans htotal
    intro a b ha hb
    simp only [beq_iff_eq] at ha hb
    simp [byPointsDesc, ha, hb]

/-- C9: `topChallenges` / `leastSolved` take 5 entries off the stable
descending / ascending solve-count sorts (the second sort running on
the array mutated by the first), so each has `min 5 n` entries, solves
are non-increasing / non-decreasing, the 5 kept challenges dominate /
are dominated by all dropped ones, the kept and dropped parts together
are a permutation of the collection, and both sort results keep every
run of equal solve counts in the order of the underlying collection
(no secondary key). -/
theorem c9_top_least_selection (challenges : List ChallengeRec) :
    (topChallenges challenges).length = min 5 challenges.length ∧
    (leastSolved challenges).length = min 5 challenges.length ∧
    ((topChallenges challenges).map (fun e => e.solves)).Pairwise (fun a b => b ≤ a) ∧
    ((leastSolved challenges).map (fun e => e.solves)).Pairwise (fun a b => a ≤ b) ∧
    List.Perm ((challenges.mergeSort bySolvesDesc).take 5 ++
      (challenges.mergeSort bySolvesDesc).drop 5) challenges ∧
    (∀ x ∈ (challenges.mergeSort bySolvesDesc).take 5,
      ∀ y ∈ (challenges.mergeSort bySolvesDesc).drop 5, solvesOf y ≤ solvesOf x) ∧
    (∀ x ∈ (challengesAfterSorts challenges).take 5,
      ∀ y ∈ (challengesAfterSorts challenges).drop 5, solvesOf x ≤ solvesOf y) ∧
    ∀ n : Nat,
      (challenges.mergeSort bySolvesDesc).filter (fun c => solvesOf c == n) =
        challenges.filter (fun c => solvesOf c == n) ∧
      (challengesAfterSorts challenges).filter (fun c => solvesOf c == n) =
        challenges.filter (fun c => solvesOf c == n) := by
  have htransD : ∀ a b c : ChallengeRec, bySolvesDesc a b → bySolvesDesc b c → bySolvesDesc a c := by
    intro a b c hab hbc
    simp only [bySolvesDesc, decide_eq_true_eq] at hab hbc ⊢
    omega
  have htotalD : ∀ a b : ChallengeRec, bySolvesDesc a b || bySolvesDesc b a := by
    intro a b
    simp only [bySolvesDesc, Bool.or_eq_true, decide_eq_true_eq]
    omega
  have htransA : ∀ a b c : ChallengeRec, bySolvesAsc a b → bySolvesAsc b c → bySolvesAsc a c := by
    intro a b c hab hbc
    simp only [bySolvesAsc, decide_eq_true_eq] at hab hbc ⊢
    omega
  have htotalA : ∀ a b : ChallengeRec, bySolvesAsc a b || bySolvesAsc b a := by
    intro a b
    simp only [bySolvesAsc, Bool.or_eq_true, decide_eq_true_eq]
    omega
  refine ⟨?_, ?_, ?_, ?_, ?_, ?_, ?_, ?_⟩
  · simp [topChallenges, List.length_take]
  · simp [leastSolved, challengesAfterSorts, List.length_take]
  · unfold topChallenges
    rw [List.map_map, List.pairwise_map]
    have hs := List.sorted_mergeSort htransD htotalD challenges
    have hs2 : ((challenges.mergeSort bySolvesDesc).take 5).Pairwise
        (fun a b => bySolvesDesc a b = true) :=
      List.Pairwise.sublist (List.take_sublist 5 _) hs
    exact hs2.imp (fun h => by simpa [bySolvesDesc, solvesOf, projectTop] using h)
  · unfold leastSolved challengesAfterSorts
    rw [List.map_map, List.pairwise_map]
    have hs := List.sorted_mergeSort htransA htotalA (challenges.mergeSort bySolvesDesc)
    have hs2 : (((challenges.mergeSort bySolvesDesc).mergeSort bySolvesAsc).take 5).Pairwise
        (fun a b => bySolvesAsc a b = true) :=
      List.Pairwise.sublist (List.take_sublist 5 _) hs
    exact hs2.imp (fun h => by simpa [bySolvesAsc, solvesOf, projectTop] using h)
  · have hperm := List.mergeSort_perm challenges bySolvesDesc
    rw [← List.take_append_drop 5 (challenges.mergeSort bySolvesDesc)] at hperm
    exact hperm
  · have hs := List.sorted_mergeSort htransD htotalD challenges
    rw [← List.take_append_drop 5 (challenges.mergeSort bySolvesDesc)] at hs
    intro x hx y hy
    have h := (List.pairwise_append.mp hs).2.2 x hx y hy
    simpa [bySolvesDesc] using h
  · have hs := List.sorted_mergeSort htransA htotalA (challenges.mergeSort bySolvesDesc)
    rw [← List.take_append_drop 5 ((challenges.mergeSort bySolvesDesc).mergeSort bySolvesAsc)] at hs
    intro x hx y hy
    have h := (List.pairwise_append.mp hs).2.2 x hx y hy
    simpa [bySolvesAsc] using h
  · intro n
    have hallD : ∀ a b : ChallengeRec,
        (fun c => solvesOf c == n) a → (fun c => solvesOf c == n) b → bySolvesDesc a b := by
      intro a b ha hb
      simp only [beq_iff_eq] at ha hb
      simp [bySolvesDesc, ha, hb]
    have hallA : ∀ a b : ChallengeRec,
        (fun c => solvesOf c == n) a → (fun c => solvesOf c == n) b → bySolvesAsc a b := by
      intro a b ha hb
      simp only [beq_iff_eq] at ha hb
      simp [bySolvesAsc, ha, hb]
    have h1 := filter_mergeSort_of_all_le bySolvesDesc htransD htotalD
      (fun c => solvesOf c == n) hallD challenges
    have h2 := filter_mergeSort_of_all_le bySolvesAsc htransA htotalA
      (fun c => solvesOf c == n) hallA (challenges.mergeSort bySolvesDesc)
    exact ⟨h1, by rw [challengesAfterSorts, h2, h1]⟩

/-- C8: every entry of `dailyBreakdown` is keyed by the ISO calendar
date of some filtered user's creation time and holds the number of
filtered users created on that day, days with no signup are absent
(no zero-filled entries), and the values sum to the size of the
30-day-filtered user set. -/
theorem c8_dailyBreakdown_counts (now : Nat) (users : List UserRec) :
    (∀ k : String,
      getEntry k (dailyBreakdown now users) =
        if ((trafficUsers now users).filter fun u => toISODate u.createdAt == k).isEmpty
        then none
        else some ((trafficUsers now users).filter fun u => toISODate u.createdAt == k).length) ∧
    sumVals (fun x => x) (dailyBreakdown now users) = (trafficUsers now users).length ∧
    (∀ k : String, ∀ n : Nat,
      getEntry k (dailyBreakdown now users) = some n → 0 < n) := by
  have hmain : ∀ k : String,
      getEntry k (dailyBreakdown now users) =
        if ((trafficUsers now users).filter fun u => toISODate u.createdAt == k).isEmpty
        then none
        else some ((trafficUsers now users).filter fun u => toISODate u.createdAt == k).length := by
    intro k
    unfold dailyBreakdown usersPerDay
    rw [getEntry_foldl_bump (fun u : UserRec => toISODate u.createdAt) 0 (fun _ x => x + 1)
      (trafficUsers now users) k []]
    simp only [getEntry]
    by_cases h : ((trafficUsers now users).filter fun u => toISODate u.createdAt == k).isEmpty
    · simp [h]
    · simp only [h, if_neg, Bool.false_eq_true, not_false_iff]
      rw [foldl_succ_length]
      simp
  refine ⟨hmain, ?_, ?_⟩
  · unfold dailyBreakdown usersPerDay
    rw [sumVals_foldl_bump (fun x : Nat => x) (fun u : UserRec => toISODate u.createdAt) 0
      (fun _ x => x + 1) (fun _ => 1) rfl (fun a v => rfl) (trafficUsers now users) []]
    simp [sumVals, sum_map_one]
  · intro k n h
    rw [hmain k] at h
    by_cases he : ((trafficUsers now users).filter fun u => toISODate u.createdAt == k).isEmpty
    · simp [he] at h
    · rw [if_neg (by simp [he])] at h
      have hn : n = ((trafficUsers now users).filter
          fun u => toISODate u.createdAt == k).length := (Option.some.inj h).symm
      have hne : ((trafficUsers now users).filter
          fun u => toISODate u.createdAt == k) ≠ [] := by
        intro hnil
        rw [hnil] at he
        simp at he
      rw [hn]
      exact List.length_pos.mpr hne

/-- C1: with `totalSuccessful` the sum of solved-set sizes over the
user collection, the estimated-failure model satisfies
`successRate + failureRate = 100` exactly whenever
`totalSuccessful > 0`, and the concrete scenario `totalSuccessful = 10`
yields `estimatedFailed = 3`, `estimatedTotalAttempts = 13`,
`successRate = 76.92` and `failureRate = 23.08`. -/
theorem c1_submission_rates (users : List UserRec) :
    (0 < totalSubmissions users →
      successRate (totalSubmissions users) + failureRate (totalSubmissions users) = 100) ∧
    estimatedFailedSubmissions 10 = 3 ∧
    estimatedTotalAttempts 10 = 13 ∧
    successRate 10 = 7692 / 100 ∧
    failureRate 10 = 2308 / 100 := by
  have hsum : ∀ m : Nat, 0 < m →
      successRate m + failureRate m = 100 := by
    intro m hm
    have ht : 0 < estimatedTotalAttempts m := by
      unfold estimatedTotalAttempts
      omega
    unfold failureRate successRate
    rw [if_pos ht]
    unfold round2
    set x : ℚ := (m : ℚ) / (estimatedTotalAttempts m : ℚ) * 100 with hx
    set j : ℤ := ⌊x * 100 + 1 / 2⌋ with hj
    have h2 : (100 : ℚ) - (j : ℚ) / 100 = ((10000 - j : ℤ) : ℚ) / 100 := by
      push_cast
      ring
    rw [h2]
    have h3 := round2_int_div_100 (10000 - j)
    unfold round2 at h3
    have h4 : (((10000 - j : ℤ) : ℚ) / 100) * 100 = ((10000 - j : ℤ) : ℚ) := by
      rw [div_mul_cancel₀]
      norm_num
    rw [h4] at h3 ⊢
    rw [show ⌊((10000 - j : ℤ) : ℚ) + 1 / 2⌋ = 10000 - j by
      rw [add_comm, Int.floor_add_int]; norm_num]
    push_cast
    ring
  have e1 : estimatedFailedSubmissions 10 = 3 := by
    unfold estimatedFailedSubmissions
    norm_num
    decide
  have e2 : estimatedTotalAttempts 10 = 13 := by
    unfold estimatedTotalAttempts
    rw [e1]
  have e3 : successRate 10 = 7692 / 100 := by
    unfold successRate
    rw [e2, if_pos (by norm_num)]
    unfold round2
    norm_num
  have e4 : failureRate 10 = 2308 / 100 := by
    unfold failureRate
    rw [e3]
    unfold round2
    norm_num
  exact ⟨hsum (totalSubmissions users), e1, e2, e3, e4⟩

/-- Sample user records used to instantiate claim theorems at concrete
inputs. -/
def sampleUsers : List UserRec :=
  [ { username := "alice", email := "a@x.io", points := 100,
      solvedChallenges :=
        [ { title := "c1", category := "web", difficulty := "easy", points := 50 },
          { title := "c2", category := "pwn", difficulty := "hard", points := 50 } ],
      createdAt := 1700000000000, isBlocked := false, role := "admin" },
    { username := "bob", email := "b@x.io", points := 0,
      solvedChallenges := [], createdAt := 1700000100000,
      isBlocked := true, role := "superadmin" } ]

/-- Sample challenge records used to instantiate claim theorems at
concrete inputs. -/
def sampleChallenges : List ChallengeRec :=
  [ { title := "c1", category := "web", difficulty := "easy", points := 50,
      isVisible := true,
      solvedBy := [ { username := "alice", email := "a@x.io", points := 100 } ] },
    { title := "c2", category := "pwn", difficulty := "hard", points := 500,
      isVisible := true, solvedBy := [] },
    { title := "c3", category := "web", difficulty := "easy", points := 100,
      isVisible := false,
      solvedBy := [ { username := "alice", email := "a@x.io", points := 100 },
                    { username := "bob", email := "b@x.io", points := 0 } ] } ]

/-- Witness for C1 at a concrete user collection with positive
`totalSubmissions`, discharging the hypothesis of the rate-sum part. -/
theorem c1_submission_rates_witness :
    0 < totalSubmissions sampleUsers ∧
    successRate (totalSubmissions sampleUsers) +
      failureRate (totalSubmissions sampleUsers) = 100 :=
  ⟨by decide, (c1_submission_rates sampleUsers).1 (by decide)⟩

/-- Witness for C8 at a concrete time and user collection. -/
theorem c8_dailyBreakdown_counts_witness :
    (∀ k : String,
      getEntry k (dailyBreakdown 1700003600000 sampleUsers) =
        if ((trafficUsers 1700003600000 sampleUsers).filter
            fun u => toISODate u.createdAt == k).isEmpty
        then none
        else some ((trafficUsers 1700003600000 sampleUsers).filter
            fun u => toISODate u.createdAt == k).length) ∧
    sumVals (fun x => x) (dailyBreakdown 1700003600000 sampleUsers) =
      (trafficUsers 1700003600000 sampleUsers).length ∧
    (∀ k : String, ∀ n : Nat,
      getEntry k (dailyBreakdown 1700003600000 sampleUsers) = some n → 0 < n) :=
  c8_dailyBreakdown_counts 1700003600000 sampleUsers

/-- Witness for C9 at a concrete challenge collection. -/
theorem c9_top_least_selection_witness :
    (topChallenges sampleChallenges).length = min 5 sampleChallenges.length ∧
    (leastSolved sampleChallenges).length = min 5 sampleChallenges.length ∧
    ((topChallenges sampleChallenges).map (fun e => e.solves)).Pairwise (fun a b => b ≤ a) ∧
    ((leastSolved sampleChallenges).map (fun e => e.solves)).Pairwise (fun a b => a ≤ b) ∧
    List.Perm ((sampleChallenges.mergeSort bySolvesDesc).take 5 ++
      (sampleChallenges.mergeSort bySolvesDesc).drop 5) sampleChallenges ∧
    (∀ x ∈ (sampleChallenges.mergeSort bySolvesDesc).take 5,
      ∀ y ∈ (sampleChallenges.mergeSort bySolvesDesc).drop 5, solvesOf y ≤ solvesOf x) ∧
    (∀ x ∈ (challengesAfterSorts sampleChallenges).take 5,
      ∀ y ∈ (challengesAfterSorts sampleChallenges).drop 5, solvesOf x ≤ solvesOf y) ∧
    ∀ n : Nat,
      (sampleChallenges.mergeSort bySolvesDesc).filter (fun c => solvesOf c == n) =
        sampleChallenges.filter (fun c => solvesOf c == n) ∧
      (challengesAfterSorts sampleChallenges).filter (fun c => solvesOf c == n) =
        sampleChallenges.filter (fun c => solvesOf c == n) :=
  c9_top_least_selection sampleChallenges

/-- Witness for C3 at a concrete user collection. -/
theorem c3_engagement_partition_witness :
    (engagement (engagementData 1700003600000 sampleUsers)).highEngagement +
      (engagement (engagementData 1700003600000 sampleUsers)).mediumEngagement +
      (engagement (engagementData 1700003600000 sampleUsers)).lowEngagement +
      (engagement (engagementData 1700003600000 sampleUsers)).inactive = totalUsers sampleUsers ∧
    (∀ u ∈ engagementData 1700003600000 sampleUsers,
      (decide (u.challengesSolved ≥ 5) && u.isActive).toNat +
        (decide (u.challengesSolved ≥ 2) && decide (u.challengesSolved < 5) && u.isActive).toNat +
        (decide (u.challengesSolved < 2) && u.isActive).toNat = u.isActive.toNat) ∧
    (engagement (engagementData 1700003600000 sampleUsers)).inactive =
      (sampleUsers.filter fun u => u.isBlocked).length :=
  c3_engagement_partition 1700003600000 sampleUsers

end Analytics
